import Mathlib

set_option autoImplicit false

/-!
Verification of `src/python/weka/experiments.py` (pyweka).

The wrapper classes are embedded shallowly: the locally-held Python state of
each wrapper becomes a Lean structure, and every foreign (javabridge) call a
wrapper makes is recorded in a trace.  Code that can raise returns a `Res`
value carrying either the result or the exception message, together with the
foreign calls already made (in Python, calls made before an exception was
raised have still happened, so the trace is kept on the error path too).
-/

namespace PyWeka

/-- A WEKA dataset as seen from the wrapper: only the ordered attribute names
are consulted locally (via `get_attribute_by_name` / `get_index`). -/
structure Instances where
  attributes : List String
deriving DecidableEq

/-- `Instances.get_attribute_by_name` from `weka.core.dataset`: the attribute
with the given name, represented by its 0-based index (`att.get_index()`),
or `none` when no attribute has that name. -/
def Instances.get_attribute_by_name (data : Instances) (name : String) : Option Nat :=
  data.attributes.findIdx? (fun a => a == name)

/-- One foreign (javabridge) call made by the `Tester` wrapper. -/
inductive JCall where
  | setDatasetKeyColumns (ranges : String)
  | setRunColumn (index : Int)
  | setFoldColumn (index : Int)
  | setResultsetKeyColumns (ranges : String)
  | header (comparison_column : Int)
  | multiResultsetFull (base_resultset comparison_column : Int)
  | multiResultsetRanking (comparison_column : Int)
  | multiResultsetSummary (comparison_column : Int)
deriving DecidableEq

/-- Whether a foreign call is one of the four statistical queries (as opposed
to a column-configuration call). -/
def JCall.isStatQuery : JCall → Bool
  | .header _ => true
  | .multiResultsetFull _ _ => true
  | .multiResultsetRanking _ => true
  | .multiResultsetSummary _ => true
  | _ => false

/-- Outcome of running wrapper code: `ok` value or raised exception message,
each with the list of foreign calls that were made. -/
inductive Res (κ : Type) (α : Type) where
  | ok : α → List κ → Res κ α
  | exn : String → List κ → Res κ α
deriving DecidableEq

/-- Local state of a `Tester` wrapper.  `instances` models what the foreign
tester's `getInstances()` currently returns (set via `set_instances`). -/
structure Tester where
  columns_determined : Bool
  dataset_columns : Option (List String)
  run_column : Option String
  fold_column : Option String
  result_columns : Option (List String)
  instances : Option Instances
deriving DecidableEq

/-- `Tester.__init__`: default column configuration, `columns_determined`
starts out `False`, and a fresh foreign tester has no instances attached. -/
def Tester.init : Tester :=
  { columns_determined := false
  , dataset_columns := some ["Key_Dataset"]
  , run_column := some "Key_Run"
  , fold_column := some "Key_Fold"
  , result_columns := some ["Key_Scheme", "Key_Scheme_options", "Key_Scheme_version_ID"]
  , instances := none }

/-- `Tester.set_instances`: stores the data on the foreign object and resets
`columns_determined` to `False`. -/
def Tester.set_instances (t : Tester) (data : Instances) : Tester :=
  { t with instances := some data, columns_determined := false }

/-- `Tester.set_dataset_columns`: assigns a copy of the list; nothing else. -/
def Tester.set_dataset_columns (t : Tester) (col_names : List String) : Tester :=
  { t with dataset_columns := some col_names }

/-- `Tester.set_run_column`: assigns the name; nothing else. -/
def Tester.set_run_column (t : Tester) (col_name : String) : Tester :=
  { t with run_column := some col_name }

/-- `Tester.set_fold_column`: assigns the name; nothing else. -/
def Tester.set_fold_column (t : Tester) (col_name : String) : Tester :=
  { t with fold_column := some col_name }

/-- `Tester.set_result_columns`: assigns a copy of the list; nothing else. -/
def Tester.set_result_columns (t : Tester) (col_names : List String) : Tester :=
  { t with result_columns := some col_names }

/-- The loop in `Tester.init_columns` that turns a list of column names into a
WEKA `Range` string of comma-separated 1-based indices, raising on the first
missing name with the given message head. -/
def key_columns_string (data : Instances) (errHead : String) :
    List String → String → Except String String
  | [], cols => .ok cols
  | name :: rest, cols =>
    match data.get_attribute_by_name name with
    | none => .error (errHead ++ name)
    | some idx =>
        key_columns_string data errHead rest
          ((if 0 < cols.length then cols ++ "," else cols) ++ toString (idx + 1))

/-- `Tester.init_columns`.  Returns immediately when the columns were already
determined; with no instances attached it prints a warning and returns (the
flag stays `False`).  Otherwise it resolves the dataset key columns and result
key columns to 1-based `Range` strings, the run column to its 0-based index,
and the fold column to its 0-based index or `-1` when absent, pushing each to
the foreign tester, and finally sets `columns_determined`. -/
def Tester.init_columns (t : Tester) : Res JCall Tester :=
  if t.columns_determined then .ok t []
  else
    match t.instances with
    | none => .ok t []
    | some data =>
      match t.dataset_columns with
      | none => .exn "No dataset columns set!" []
      | some dnames =>
        match key_columns_string data "Dataset column not found: " dnames "" with
        | .error m => .exn m []
        | .ok cols =>
          let tr1 := [JCall.setDatasetKeyColumns cols]
          match t.run_column with
          | none => .exn "No run columnn set!" tr1
          | some rname =>
            match data.get_attribute_by_name rname with
            | none => .exn ("Run column not found: " ++ rname) tr1
            | some ridx =>
              let tr2 := tr1 ++ [JCall.setRunColumn (ridx : Int)]
              let tr3 := tr2 ++
                (match t.fold_column with
                 | none => []
                 | some fname =>
                   [JCall.setFoldColumn
                     (match data.get_attribute_by_name fname with
                      | none => -1
                      | some fidx => (fidx : Int))])
              match t.result_columns with
              | none => .exn "No reset columns set!" tr3
              | some rnames =>
                match key_columns_string data "Result column not found: " rnames "" with
                | .error m => .exn m tr3
                | .ok cols2 =>
                  .ok { t with columns_determined := true }
                    (tr3 ++ [JCall.setResultsetKeyColumns cols2])

/-- `Tester.header`: forces column resolution via `init_columns`, then makes
the foreign `header` call.  The foreign library's answer is modelled by the
`oracle` argument. -/
def Tester.header (oracle : JCall → String) (t : Tester) (comparison_column : Int) :
    Res JCall (Tester × String) :=
  match t.init_columns with
  | .exn m tr => .exn m tr
  | .ok t2 tr =>
      .ok (t2, oracle (JCall.header comparison_column))
        (tr ++ [JCall.header comparison_column])

/-- `Tester.multi_resultset_full`: a single foreign `multiResultsetFull` call
(no local work before it). -/
def Tester.multi_resultset_full (oracle : JCall → String) (t : Tester)
    (base_resultset comparison_column : Int) : Res JCall (Tester × String) :=
  .ok (t, oracle (JCall.multiResultsetFull base_resultset comparison_column))
    [JCall.multiResultsetFull base_resultset comparison_column]

/-- `Tester.multi_resultset_ranking`: a single foreign `multiResultsetRanking`
call (no local work before it). -/
def Tester.multi_resultset_ranking (oracle : JCall → String) (t : Tester)
    (comparison_column : Int) : Res JCall (Tester × String) :=
  .ok (t, oracle (JCall.multiResultsetRanking comparison_column))
    [JCall.multiResultsetRanking comparison_column]

/-- `Tester.multi_resultset_summary`: a single foreign `multiResultsetSummary`
call (no local work before it). -/
def Tester.multi_resultset_summary (oracle : JCall → String) (t : Tester)
    (comparison_column : Int) : Res JCall (Tester × String) :=
  .ok (t, oracle (JCall.multiResultsetSummary comparison_column))
    [JCall.multiResultsetSummary comparison_column]

/-- One foreign (javabridge) call made by the `SimpleExperiment` wrappers.
`initExperiment` models the foreign `initialize` phase of `run`. -/
inductive ECall where
  | makeInstance (clsname : String)
  | getClassifier
  | setPropertyArrayEmpty
  | setPropertyArrayClassifiers (classifiers : List String)
  | setUsePropertyIterator (b : Bool)
  | setRunLower (n : Int)
  | setRunUpper (n : Int)
  | setNumFolds (n : Int)
  | setRandomizeData (b : Bool)
  | setTrainPercent (p : Rat)
  | setSplitEvaluator
  | setResultProducer
  | setPropertyPath
  | makeFile (path : String)
  | addElement
  | setDatasets
  | setOutputFile
  | setResultListener
  | initExperiment
  | runExperiment
  | postProcess
deriving DecidableEq

/-- Which `configure_resultproducer` override the experiment object carries:
the abstract base (raises), the cross-validation variant (holds `folds`), or
the random-split variant (holds `percentage`, `preserve_order`).  The source's
float `percentage` is modelled as an exact rational; every finite float is a
rational and the two threshold comparisons agree on it. -/
inductive ResultProducerKind where
  | abstractBase
  | crossValidation (folds : Int)
  | randomSplit (percentage : Rat) (preserve_order : Bool)
deriving DecidableEq

/-- Local state of a `SimpleExperiment` wrapper (fields set by `__init__`).
`jobject` is the foreign experiment handle, `none` until `setup` binds it. -/
structure SimpleExperiment where
  classification : Bool
  runs : Int
  datasets : List String
  classifiers : List String
  result : Option String
  jobject : Option Nat
  producer : ResultProducerKind
deriving DecidableEq

/-- `SimpleExperiment.__init__` with `jobject=None`: plain field assignment,
no foreign call. -/
def SimpleExperiment.init (datasets classifiers : List String)
    (classification : Bool) (runs : Int) (result : Option String)
    (producer : ResultProducerKind) : SimpleExperiment :=
  { classification, runs, datasets, classifiers, result, jobject := none, producer }

/-- `SimpleExperiment.configure_splitevaluator`: creates the classification or
regression split evaluator and fetches its classifier. -/
def configure_splitevaluator (classification : Bool) : List ECall :=
  [ ECall.makeInstance (if classification then "weka/experiment/ClassifierSplitEvaluator"
                        else "weka/experiment/RegressionSplitEvaluator")
  , ECall.getClassifier ]

/-- The reflection objects both concrete `configure_resultproducer` overrides
build for the two-element property path (`splitEvaluator` then `classifier`). -/
def property_path_calls : List ECall :=
  [ ECall.makeInstance "java/beans/PropertyDescriptor"
  , ECall.makeInstance "weka/experiment/PropertyNode"
  , ECall.makeInstance "java/beans/PropertyDescriptor"
  , ECall.makeInstance "weka/experiment/PropertyNode" ]

/-- `configure_resultproducer`: raises on the abstract base class; on the two
concrete subclasses builds the variant-specific producer, the split evaluator
and the property path. -/
def configure_resultproducer (classification : Bool) :
    ResultProducerKind → Except String (List ECall)
  | .abstractBase => .error "Not implemented!"
  | .crossValidation folds =>
      .ok ([ ECall.makeInstance "weka/experiment/CrossValidationResultProducer"
           , ECall.setNumFolds folds ]
           ++ configure_splitevaluator classification
           ++ [ECall.setSplitEvaluator] ++ property_path_calls)
  | .randomSplit percentage preserve_order =>
      .ok ([ ECall.makeInstance "weka/experiment/RandomSplitResultProducer"
           , ECall.setRandomizeData (!preserve_order)
           , ECall.setTrainPercent percentage ]
           ++ configure_splitevaluator classification
           ++ [ECall.setSplitEvaluator] ++ property_path_calls)

/-- Python's `str()` on an optional string: `str(None)` is `"None"`. -/
def pyStr : Option String → String
  | none => "None"
  | some s => s

/-- Python's `str.lower()` on the characters relevant here (ASCII letters). -/
def pyLowerChar (c : Char) : Char :=
  if 'A' ≤ c ∧ c ≤ 'Z' then Char.ofNat (c.toNat + 32) else c

/-- `s.lower().endswith(suffix)` from the source's listener dispatch. -/
def pyLowerEndsWith (s : String) (suffix : List Char) : Bool :=
  List.isSuffixOf suffix (s.data.map pyLowerChar)

/-- The listener dispatch at the end of `SimpleExperiment.setup`:
`str(result).lower()` ending in `".arff"` picks `InstancesResultListener`,
`".csv"` picks `CSVResultListener`, anything else raises.  (With
`result=None` the message concatenation itself raises a `TypeError`.) -/
def result_listener_choice (result : Option String) : Except String String :=
  if pyLowerEndsWith (pyStr result) ".arff".data then
    .ok "weka/experiment/InstancesResultListener"
  else if pyLowerEndsWith (pyStr result) ".csv".data then
    .ok "weka/experiment/CSVResultListener"
  else
    match result with
    | some r => .error ("Unhandled output format for results: " ++ r)
    | none => .error "TypeError: can only concatenate str to str"

/-- The opening foreign calls of `setup` (lines 110-121 of the source): create
the foreign experiment and set the basic options. -/
def setup_basic_calls (e : SimpleExperiment) : List ECall :=
  [ ECall.makeInstance "weka/experiment/Experiment"
  , ECall.setPropertyArrayEmpty
  , ECall.setUsePropertyIterator true
  , ECall.setRunLower 1
  , ECall.setRunUpper e.runs ]

/-- All configuration calls of a successful `setup` before the listener
dispatch: basic options, the result producer (whose calls `trProd` come from
`configure_resultproducer`), property path, classifiers and datasets. -/
def setup_config_calls (e : SimpleExperiment) (trProd : List ECall) : List ECall :=
  setup_basic_calls e ++ trProd ++ [ECall.setResultProducer, ECall.setPropertyPath]
  ++ [ECall.setPropertyArrayClassifiers e.classifiers]
  ++ [ECall.makeInstance "javax/swing/DefaultListModel"]
  ++ (e.datasets.map fun d => [ECall.makeFile d, ECall.addElement]).flatten
  ++ [ECall.setDatasets]

/-- `SimpleExperiment.setup`: no-op when a foreign handle already exists;
otherwise creates the foreign experiment, sets the basic options, delegates to
`configure_resultproducer`, wires classifiers and datasets, then selects and
attaches the result listener by sink-file extension. -/
def SimpleExperiment.setup (e : SimpleExperiment) : Res ECall SimpleExperiment :=
  if e.jobject.isSome then .ok e []
  else
    match configure_resultproducer e.classification e.producer with
    | .error m => .exn m (setup_basic_calls e)
    | .ok trProd =>
      match result_listener_choice e.result with
      | .error m => .exn m (setup_config_calls e trProd)
      | .ok lcls =>
          .ok { e with jobject := some 0 }
            (setup_config_calls e trProd
              ++ [ ECall.makeInstance lcls
                 , ECall.makeFile (pyStr e.result)
                 , ECall.setOutputFile
                 , ECall.setResultListener ])

/-- `SimpleExperiment.run`: the three ordered foreign calls on the handle.
`behav` models the foreign library: `none` means the call returns normally,
`some m` that it raises with message `m`; a raised exception stops the
sequence and propagates. -/
def SimpleExperiment.run (behav : ECall → Option String) : Res ECall Unit :=
  match behav ECall.initExperiment with
  | some m => .exn m [ECall.initExperiment]
  | none =>
    match behav ECall.runExperiment with
    | some m => .exn m [ECall.initExperiment, ECall.runExperiment]
    | none =>
      match behav ECall.postProcess with
      | some m => .exn m [ECall.initExperiment, ECall.runExperiment, ECall.postProcess]
      | none => .ok () [ECall.initExperiment, ECall.runExperiment, ECall.postProcess]

/-- `SimpleCrossValidationExperiment.__init__`: the validation checks in
source order, then plain field assignment through the base constructor.  The
constructor contains no javabridge use, so on error no foreign object has
been created (`jobject` is only ever bound in `setup`). -/
def SimpleCrossValidationExperiment.init (datasets classifiers : List String)
    (classification : Bool) (runs folds : Int) (result : Option String) :
    Except String SimpleExperiment :=
  if runs < 1 then .error "Number of runs must be at least 1!"
  else if folds < 2 then .error "Number of folds must be at least 2!"
  else if datasets.length = 0 then .error "No datasets provided!"
  else if classifiers.length = 0 then .error "No classifiers provided!"
  else if result.isNone then .error "No filename for results provided!"
  else .ok (SimpleExperiment.init datasets classifiers classification runs result
              (.crossValidation folds))

/-- `SimpleRandomSplitExperiment.__init__`: the validation checks in source
order (`percentage <= 0` and `percentage >= 100` each raise), then plain
field assignment; no javabridge use. -/
def SimpleRandomSplitExperiment.init (datasets classifiers : List String)
    (classification : Bool) (runs : Int) (percentage : Rat)
    (preserve_order : Bool) (result : Option String) :
    Except String SimpleExperiment :=
  if runs < 1 then .error "Number of runs must be at least 1!"
  else if percentage ≤ 0 then .error "Percentage for training must be >0!"
  else if 100 ≤ percentage then .error "Percentage for training must be <100!"
  else if datasets.length = 0 then .error "No datasets provided!"
  else if classifiers.length = 0 then .error "No classifiers provided!"
  else if result.isNone then .error "No filename for results provided!"
  else .ok (SimpleExperiment.init datasets classifiers classification runs result
              (.randomSplit percentage preserve_order))

/-- Comma-separated join, the shape of the `Range` strings built by
`init_columns` (left fold, separator only between items). -/
def comma_join : List String → String
  | [] => ""
  | x :: rest => rest.foldl (fun a y => a ++ "," ++ y) x

/-- Test dataset whose attributes are exactly the default column names of a
fresh `Tester`, in order. -/
def dataAllCols : Instances :=
  ⟨[ "Key_Dataset", "Key_Run", "Key_Fold", "Key_Scheme", "Key_Scheme_options"
   , "Key_Scheme_version_ID" ]⟩

/-- Test dataset lacking only the default fold column `"Key_Fold"`. -/
def dataNoFold : Instances :=
  ⟨["Key_Dataset", "Key_Run", "Key_Scheme", "Key_Scheme_options", "Key_Scheme_version_ID"]⟩

/-- Test dataset lacking only the default run column `"Key_Run"`. -/
def dataNoRun : Instances :=
  ⟨["Key_Dataset", "Key_Fold", "Key_Scheme", "Key_Scheme_options", "Key_Scheme_version_ID"]⟩

/-- Test dataset with the run column first (0-based index 0). -/
def dataRunFirst : Instances :=
  ⟨[ "Key_Run", "Key_Dataset", "Key_Fold", "Key_Scheme", "Key_Scheme_options"
   , "Key_Scheme_version_ID" ]⟩

/-- A trivial model of the foreign library's query answers. -/
def oracle0 : JCall → String := fun _ => ""

/-- A foreign-library behaviour in which every call returns normally. -/
def behavOk : ECall → Option String := fun _ => none

/-- The tester obtained from a fresh `Tester` after attaching `dataAllCols`
and resolving columns. -/
def testerResolved : Tester :=
  { Tester.init.set_instances dataAllCols with columns_determined := true }

/-- A concrete valid cross-validation experiment configuration. -/
def expCV : SimpleExperiment :=
  SimpleExperiment.init ["data1.arff", "data2.arff"] ["weka.classifiers.trees.J48"]
    true 10 (some "out.arff") (.crossValidation 10)

/-- A concrete experiment whose result path has an upper-case extension. -/
def expUpper : SimpleExperiment :=
  SimpleExperiment.init ["data1.arff"] ["weka.classifiers.trees.J48"]
    true 10 (some "OUT.ARFF") (.crossValidation 10)

/-! ### Helper lemmas -/

theorem toDigitsCore_length_le (b fuel n : Nat) (ds : List Char) :
    ds.length ≤ (Nat.toDigitsCore b fuel n ds).length := by
  induction fuel generalizing n ds with
  | zero => simp [Nat.toDigitsCore]
  | succ f ih =>
    unfold Nat.toDigitsCore
    dsimp only
    split
    · simp
    · exact le_trans (by simp) (ih _ _)

theorem toString_length_pos (n : Nat) : 0 < (toString n).length := by
  have h : 0 < (Nat.toDigits 10 n).length := by
    unfold Nat.toDigits
    unfold Nat.toDigitsCore
    dsimp only
    split
    · simp
    · exact lt_of_lt_of_le (by simp) (toDigitsCore_length_le _ _ _ _)
  simpa [toString, Nat.repr, String.length, List.asString] using h

theorem key_columns_string_go (data : Instances) (eh : String) :
    ∀ (names : List String) (idxs : List Nat),
      names.map data.get_attribute_by_name = idxs.map Option.some →
      ∀ acc : String, 0 < acc.length →
        key_columns_string data eh names acc
          = .ok ((idxs.map fun i => toString (i + 1)).foldl (fun a y => a ++ "," ++ y) acc) := by
  intro names
  induction names with
  | nil =>
    intro idxs h acc _
    cases idxs with
    | nil => rfl
    | cons i is => simp at h
  | cons n rest ih =>
    intro idxs h acc hacc
    cases idxs with
    | nil => simp at h
    | cons i is =>
      simp only [List.map_cons, List.cons.injEq] at h
      obtain ⟨h1, h2⟩ := h
      have hacc2 : 0 < ((acc ++ ",") ++ toString (i + 1)).length := by
        simp [String.length_append]
        omega
      simp only [key_columns_string, h1]
      rw [if_pos hacc]
      rw [ih is h2 _ hacc2]
      simp [List.foldl_cons]

theorem key_columns_string_ok_eq (data : Instances) (eh : String)
    (names : List String) (idxs : List Nat)
    (h : names.map data.get_attribute_by_name = idxs.map Option.some) :
    key_columns_string data eh names ""
      = .ok (comma_join (idxs.map fun i => toString (i + 1))) := by
  cases names with
  | nil =>
    cases idxs with
    | nil => rfl
    | cons i is => simp at h
  | cons n rest =>
    cases idxs with
    | nil => simp at h
    | cons i is =>
      simp only [List.map_cons, List.cons.injEq] at h
      obtain ⟨h1, h2⟩ := h
      have hpos : 0 < (toString (i + 1)).length := toString_length_pos _
      simp only [key_columns_string, h1]
      rw [if_neg (by decide)]
      have hempty : ("" : String) ++ toString (i + 1) = toString (i + 1) := rfl
      rw [hempty, key_columns_string_go data eh rest is h2 _ hpos]
      simp [comma_join]

theorem key_columns_string_missing (data : Instances) (eh : String) :
    ∀ (names : List String) (acc : String),
      (∃ n ∈ names, data.get_attribute_by_name n = none) →
      ∃ n ∈ names, data.get_attribute_by_name n = none ∧
        key_columns_string data eh names acc = .error (eh ++ n) := by
  intro names
  induction names with
  | nil =>
    intro acc h
    simp at h
  | cons a rest ih =>
    intro acc h
    cases ha : data.get_attribute_by_name a with
    | none => exact ⟨a, by simp, ha, by simp [key_columns_string, ha]⟩
    | some i =>
      have h2 : ∃ n ∈ rest, data.get_attribute_by_name n = none := by
        obtain ⟨n, hn, hnone⟩ := h
        rcases List.mem_cons.mp hn with rfl | hmem
        · exact absurd hnone (by simp [ha])
        · exact ⟨n, hmem, hnone⟩
      obtain ⟨n, hn, hnone, heq⟩ :=
        ih ((if 0 < acc.length then acc ++ "," else acc) ++ toString (i + 1)) h2
      exact ⟨n, List.mem_cons_of_mem _ hn, hnone, by simp [key_columns_string, ha, heq]⟩

theorem key_columns_string_total (data : Instances) (eh : String) :
    ∀ (names : List String) (acc : String),
      (∀ n ∈ names, data.get_attribute_by_name n ≠ none) →
      ∃ s, key_columns_string data eh names acc = .ok s := by
  intro names
  induction names with
  | nil => exact fun acc _ => ⟨acc, rfl⟩
  | cons a rest ih =>
    intro acc h
    cases ha : data.get_attribute_by_name a with
    | none => exact absurd ha (h a (by simp))
    | some i =>
      obtain ⟨s, hs⟩ :=
        ih ((if 0 < acc.length then acc ++ "," else acc) ++ toString (i + 1))
          (fun n hn => h n (List.mem_cons_of_mem _ hn))
      exact ⟨s, by simp [key_columns_string, ha, hs]⟩

theorem pyLowerEndsWith_of_isSuffixOf (r : String) (suf : List Char)
    (hmap : suf.map pyLowerChar = suf)
    (h : List.isSuffixOf suf r.data = true) :
    pyLowerEndsWith r suf = true := by
  rw [List.isSuffixOf_iff_suffix] at h
  obtain ⟨pre, hpre⟩ := h
  rw [pyLowerEndsWith, List.isSuffixOf_iff_suffix]
  exact ⟨pre.map pyLowerChar, by rw [← hpre, List.map_append, hmap]⟩

theorem not_lower_arff_of_lower_csv (r : String)
    (h : pyLowerEndsWith r ".csv".data = true) :
    pyLowerEndsWith r ".arff".data = false := by
  by_contra hra
  rw [Bool.not_eq_false] at hra
  rw [pyLowerEndsWith, List.isSuffixOf_iff_suffix] at h hra
  obtain ⟨t1, h1⟩ := h
  obtain ⟨t2, h2⟩ := hra
  have e1 : (r.data.map pyLowerChar).getLast? = some 'v' := by
    rw [← h1, List.getLast?_append_of_ne_nil _ (by decide)]
    decide
  have e2 : (r.data.map pyLowerChar).getLast? = some 'f' := by
    rw [← h2, List.getLast?_append_of_ne_nil _ (by decide)]
    decide
  rw [e1] at e2
  simp at e2

/-! ### Claim theorems -/

/-- C1 (counterexample): on a tester whose columns have been resolved against
`dataAllCols`, reassigning the dataset columns, run column, fold column or
result columns via the four setters does NOT clear `columns_determined`: the
flag stays `true`, so the claimed invalidation does not happen. -/
theorem C1_counterexample :
    (Tester.init.set_instances dataAllCols).init_columns
      = Res.ok testerResolved
          [ JCall.setDatasetKeyColumns "1", JCall.setRunColumn 1, JCall.setFoldColumn 2
          , JCall.setResultsetKeyColumns "4,5,6" ] ∧
    (testerResolved.set_dataset_columns ["Key_Dataset"]).columns_determined = true ∧
    (testerResolved.set_run_column "Key_Run").columns_determined = true ∧
    (testerResolved.set_fold_column "Key_Fold").columns_determined = true ∧
    (testerResolved.set_result_columns ["Key_Scheme"]).columns_determined = true := by
  decide

/-- C1 (amended): the four column setters leave `columns_determined` exactly
as it was — none of them invalidates the cached resolution; only
`set_instances` clears the flag, so re-resolution is forced only by
(re)attaching a dataset, not by reassigning column names. -/
theorem C1_setters_do_not_invalidate (t : Tester) (ns ms : List String)
    (n1 n2 : String) (data : Instances) :
    (t.set_dataset_columns ns).columns_determined = t.columns_determined ∧
    (t.set_run_column n1).columns_determined = t.columns_determined ∧
    (t.set_fold_column n2).columns_determined = t.columns_determined ∧
    (t.set_result_columns ms).columns_determined = t.columns_determined ∧
    (t.set_instances data).columns_determined = false :=
  ⟨rfl, rfl, rfl, rfl, rfl⟩

/-- C2 (counterexample): on a tester with a dataset attached and columns not
yet determined, `multi_resultset_full`, `multi_resultset_ranking` and
`multi_resultset_summary` do NOT force column resolution first: each makes
only its single foreign statistics call, the tester is returned unchanged and
`columns_determined` is still `false`. -/
theorem C2_counterexample :
    (Tester.init.set_instances dataAllCols).columns_determined = false ∧
    Tester.multi_resultset_full oracle0 (Tester.init.set_instances dataAllCols) 0 1
      = Res.ok (Tester.init.set_instances dataAllCols, "") [JCall.multiResultsetFull 0 1] ∧
    Tester.multi_resultset_ranking oracle0 (Tester.init.set_instances dataAllCols) 1
      = Res.ok (Tester.init.set_instances dataAllCols, "") [JCall.multiResultsetRanking 1] ∧
    Tester.multi_resultset_summary oracle0 (Tester.init.set_instances dataAllCols) 1
      = Res.ok (Tester.init.set_instances dataAllCols, "") [JCall.multiResultsetSummary 1] := by
  decide

/-- C2 (amended): of the four public query operations only `header` first
forces column resolution (its trace is the `init_columns` trace followed by
the foreign `header` call, and an `init_columns` exception propagates); the
three `multi_resultset_*` operations delegate directly to the foreign library
with a single statistics call and no column resolution. -/
theorem C2_only_header_resolves (oracle : JCall → String) (t : Tester) (b c : Int) :
    (∀ t2 tr, t.init_columns = Res.ok t2 tr →
      Tester.header oracle t c
        = Res.ok (t2, oracle (JCall.header c)) (tr ++ [JCall.header c])) ∧
    (∀ m tr, t.init_columns = Res.exn m tr → Tester.header oracle t c = Res.exn m tr) ∧
    Tester.multi_resultset_full oracle t b c
      = Res.ok (t, oracle (JCall.multiResultsetFull b c)) [JCall.multiResultsetFull b c] ∧
    Tester.multi_resultset_ranking oracle t c
      = Res.ok (t, oracle (JCall.multiResultsetRanking c)) [JCall.multiResultsetRanking c] ∧
    Tester.multi_resultset_summary oracle t c
      = Res.ok (t, oracle (JCall.multiResultsetSummary c)) [JCall.multiResultsetSummary c] := by
  refine ⟨?_, ?_, rfl, rfl, rfl⟩
  · intro t2 tr h
    simp [Tester.header, h]
  · intro m tr h
    simp [Tester.header, h]

/-- Witness for C2 (amended) at a concrete tester and dataset. -/
theorem C2_only_header_resolves_witness :
    Tester.header oracle0 (Tester.init.set_instances dataAllCols) 1
      = Res.ok (testerResolved, oracle0 (JCall.header 1))
          ([ JCall.setDatasetKeyColumns "1", JCall.setRunColumn 1, JCall.setFoldColumn 2
           , JCall.setResultsetKeyColumns "4,5,6" ] ++ [JCall.header 1]) :=
  (C2_only_header_resolves oracle0 (Tester.init.set_instances dataAllCols) 0 1).1
    testerResolved _ (by decide)

/-- C10: with no dataset attached and columns not determined, `init_columns`
returns normally with no foreign call and the tester unchanged (the flag stays
`false`), and `header` proceeds to the foreign statistics call with no column
configuration applied. -/
theorem C10_no_dataset_tolerated (oracle : JCall → String) (t : Tester) (c : Int)
    (hinst : t.instances = none) (hflag : t.columns_determined = false) :
    t.init_columns = Res.ok t [] ∧
    Tester.header oracle t c = Res.ok (t, oracle (JCall.header c)) [JCall.header c] := by
  have h1 : t.init_columns = Res.ok t [] := by
    simp [Tester.init_columns, hflag, hinst]
  exact ⟨h1, by simp [Tester.header, h1]⟩

/-- Witness for C10 at a fresh tester. -/
theorem C10_no_dataset_tolerated_witness :
    Tester.init.init_columns = Res.ok Tester.init [] ∧
    Tester.header oracle0 Tester.init 1
      = Res.ok (Tester.init, oracle0 (JCall.header 1)) [JCall.header 1] :=
  C10_no_dataset_tolerated oracle0 Tester.init 1 rfl rfl

/-- C7 (counterexample): the configured fold column may be absent without any
lookup error: on `dataNoFold` (which lacks `"Key_Fold"`) the `header` query
succeeds, passes `-1` to the foreign `setFoldColumn`, and the foreign
statistics call is made — the claim's "fails with a lookup error naming that
column, and no foreign statistics call is made" is false for the fold column. -/
theorem C7_counterexample :
    (Tester.init.set_instances dataNoFold).fold_column = some "Key_Fold" ∧
    dataNoFold.get_attribute_by_name "Key_Fold" = none ∧
    Tester.header oracle0 (Tester.init.set_instances dataNoFold) 1
      = Res.ok ({ Tester.init.set_instances dataNoFold with columns_determined := true }, "")
          [ JCall.setDatasetKeyColumns "1", JCall.setRunColumn 1, JCall.setFoldColumn (-1)
          , JCall.setResultsetKeyColumns "3,4,5", JCall.header 1 ] := by
  decide

/-- C7 (amended): for a `header` query (the query that forces resolution) on a
tester with a dataset attached and columns not yet determined, a missing
dataset, run, or result column raises a lookup error naming a missing column,
with no foreign statistics call in the trace; a missing fold column alone does
not raise — it is passed to the foreign library as index `-1` and the
statistics call proceeds. -/
theorem C7_missing_column_lookup (oracle : JCall → String) (t : Tester)
    (data : Instances) (dn resn : List String) (rn : String) (c : Int)
    (hflag : t.columns_determined = false) (hinst : t.instances = some data)
    (hdn : t.dataset_columns = some dn) (hrn : t.run_column = some rn)
    (hresn : t.result_columns = some resn) :
    ((∃ n ∈ dn, data.get_attribute_by_name n = none) ∨
        data.get_attribute_by_name rn = none ∨
        (∃ n ∈ resn, data.get_attribute_by_name n = none) →
      ∃ n tr, data.get_attribute_by_name n = none ∧
        (Tester.header oracle t c = Res.exn ("Dataset column not found: " ++ n) tr ∨
         Tester.header oracle t c = Res.exn ("Run column not found: " ++ n) tr ∨
         Tester.header oracle t c = Res.exn ("Result column not found: " ++ n) tr) ∧
        ∀ call ∈ tr, call.isStatQuery = false) ∧
    (∀ fn, t.fold_column = some fn → data.get_attribute_by_name fn = none →
      (∀ n ∈ dn, data.get_attribute_by_name n ≠ none) →
      data.get_attribute_by_name rn ≠ none →
      (∀ n ∈ resn, data.get_attribute_by_name n ≠ none) →
      ∃ t2 tr, Tester.header oracle t c = Res.ok (t2, oracle (JCall.header c)) tr ∧
        JCall.setFoldColumn (-1) ∈ tr) := by
  constructor
  · intro hmiss
    by_cases hd : ∃ n ∈ dn, data.get_attribute_by_name n = none
    · obtain ⟨n, hn, hnone, heq⟩ :=
        key_columns_string_missing data "Dataset column not found: " dn "" hd
      refine ⟨n, [], hnone, Or.inl ?_, by simp⟩
      have hic : t.init_columns = Res.exn ("Dataset column not found: " ++ n) [] := by
        simp [Tester.init_columns, hflag, hinst, hdn, heq]
      simp [Tester.header, hic]
    · push_neg at hd
      obtain ⟨s, hs⟩ := key_columns_string_total data "Dataset column not found: " dn "" hd
      by_cases hr : data.get_attribute_by_name rn = none
      · refine ⟨rn, [JCall.setDatasetKeyColumns s], hr, Or.inr (Or.inl ?_),
          by simp [JCall.isStatQuery]⟩
        have hic : t.init_columns
            = Res.exn ("Run column not found: " ++ rn) [JCall.setDatasetKeyColumns s] := by
          simp [Tester.init_columns, hflag, hinst, hdn, hs, hrn, hr]
        simp [Tester.header, hic]
      · obtain ⟨ridx, hridx⟩ := Option.ne_none_iff_exists'.mp hr
        have hres : ∃ n ∈ resn, data.get_attribute_by_name n = none := by
          rcases hmiss with h | h | h
          · obtain ⟨n, hn, hnone⟩ := h
            exact absurd hnone (hd n hn)
          · exact absurd h hr
          · exact h
        obtain ⟨n, hn, hnone, heq2⟩ :=
          key_columns_string_missing data "Result column not found: " resn "" hres
        cases hfc : t.fold_column with
        | none =>
          refine ⟨n, [JCall.setDatasetKeyColumns s, JCall.setRunColumn ridx], hnone,
            Or.inr (Or.inr ?_), by simp [JCall.isStatQuery]⟩
          have hic : t.init_columns = Res.exn ("Result column not found: " ++ n)
              [JCall.setDatasetKeyColumns s, JCall.setRunColumn ridx] := by
            simp [Tester.init_columns, hflag, hinst, hdn, hs, hrn, hridx, hfc, hresn, heq2]
          simp [Tester.header, hic]
        | some fn =>
          cases hgf : data.get_attribute_by_name fn with
          | none =>
            refine ⟨n, [JCall.setDatasetKeyColumns s, JCall.setRunColumn ridx,
                JCall.setFoldColumn (-1)], hnone,
              Or.inr (Or.inr ?_), by simp [JCall.isStatQuery]⟩
            have hic : t.init_columns = Res.exn ("Result column not found: " ++ n)
                [JCall.setDatasetKeyColumns s, JCall.setRunColumn ridx,
                 JCall.setFoldColumn (-1)] := by
              simp [Tester.init_columns, hflag, hinst, hdn, hs, hrn, hridx, hfc, hgf,
                    hresn, heq2]
            simp [Tester.header, hic]
          | some fi =>
            refine ⟨n, [JCall.setDatasetKeyColumns s, JCall.setRunColumn ridx,
                JCall.setFoldColumn fi], hnone,
              Or.inr (Or.inr ?_), by simp [JCall.isStatQuery]⟩
            have hic : t.init_columns = Res.exn ("Result column not found: " ++ n)
                [JCall.setDatasetKeyColumns s, JCall.setRunColumn ridx,
                 JCall.setFoldColumn fi] := by
              simp [Tester.init_columns, hflag, hinst, hdn, hs, hrn, hridx, hfc, hgf,
                    hresn, heq2]
            simp [Tester.header, hic]
  · intro fn hfn hfnone hdall hrsome hresall
    obtain ⟨s, hs⟩ := key_columns_string_total data "Dataset column not found: " dn "" hdall
    obtain ⟨ridx, hridx⟩ := Option.ne_none_iff_exists'.mp hrsome
    obtain ⟨s2, hs2⟩ := key_columns_string_total data "Result column not found: " resn "" hresall
    have hic : t.init_columns = Res.ok { t with columns_determined := true }
        [ JCall.setDatasetKeyColumns s, JCall.setRunColumn ridx, JCall.setFoldColumn (-1)
        , JCall.setResultsetKeyColumns s2 ] := by
      simp [Tester.init_columns, hflag, hinst, hdn, hs, hrn, hridx, hfn, hfnone, hresn, hs2]
    refine ⟨{ t with columns_determined := true },
      [ JCall.setDatasetKeyColumns s, JCall.setRunColumn ridx, JCall.setFoldColumn (-1)
      , JCall.setResultsetKeyColumns s2 ] ++ [JCall.header c], ?_, by simp⟩
    simp [Tester.header, hic]

/-- Witness for C7 (amended): on a dataset missing only the run column, the
`header` query fails with the lookup error naming it and no statistics call. -/
theorem C7_missing_column_lookup_witness :
    ∃ n tr, dataNoRun.get_attribute_by_name n = none ∧
      (Tester.header oracle0 (Tester.init.set_instances dataNoRun) 1
          = Res.exn ("Dataset column not found: " ++ n) tr ∨
       Tester.header oracle0 (Tester.init.set_instances dataNoRun) 1
          = Res.exn ("Run column not found: " ++ n) tr ∨
       Tester.header oracle0 (Tester.init.set_instances dataNoRun) 1
          = Res.exn ("Result column not found: " ++ n) tr) ∧
      ∀ call ∈ tr, call.isStatQuery = false :=
  (C7_missing_column_lookup oracle0 (Tester.init.set_instances dataNoRun) dataNoRun
      ["Key_Dataset"] ["Key_Scheme", "Key_Scheme_options", "Key_Scheme_version_ID"]
      "Key_Run" 1 rfl rfl rfl rfl rfl).1
    (Or.inr (Or.inl (by decide)))

/-- C8 (counterexample): the run column is NOT passed as a 1-based index: on
`dataRunFirst` the run column `"Key_Run"` has 0-based index `0`, and the
foreign `setRunColumn` receives `0`, not the 1-based `0 + 1`. -/
theorem C8_counterexample :
    dataRunFirst.get_attribute_by_name "Key_Run" = some 0 ∧
    (Tester.init.set_instances dataRunFirst).init_columns
      = Res.ok { Tester.init.set_instances dataRunFirst with columns_determined := true }
          [ JCall.setDatasetKeyColumns "2", JCall.setRunColumn 0, JCall.setFoldColumn 2
          , JCall.setResultsetKeyColumns "4,5,6" ] ∧
    (0 : Int) ≠ ((0 : Nat) : Int) + 1 := by
  decide

/-- C8 (amended): column resolution maps the dataset-key and result-key column
names to comma-joined 1-based indices (the `Range` strings), but passes the
run column and the fold column as their 0-based attribute indices. -/
theorem C8_column_index_bases (t : Tester) (data : Instances)
    (dn resn : List String) (rn fn : String) (didxs residxs : List Nat) (ridx fidx : Nat)
    (hflag : t.columns_determined = false) (hinst : t.instances = some data)
    (hdn : t.dataset_columns = some dn) (hrn : t.run_column = some rn)
    (hfn : t.fold_column = some fn) (hresn : t.result_columns = some resn)
    (hd : dn.map data.get_attribute_by_name = didxs.map Option.some)
    (hr : data.get_attribute_by_name rn = some ridx)
    (hf : data.get_attribute_by_name fn = some fidx)
    (hres : resn.map data.get_attribute_by_name = residxs.map Option.some) :
    t.init_columns = Res.ok { t with columns_determined := true }
      [ JCall.setDatasetKeyColumns (comma_join (didxs.map fun i => toString (i + 1)))
      , JCall.setRunColumn (ridx : Int)
      , JCall.setFoldColumn (fidx : Int)
      , JCall.setResultsetKeyColumns (comma_join (residxs.map fun i => toString (i + 1))) ] := by
  simp [Tester.init_columns, hflag, hinst, hdn, hrn, hfn, hresn, hr, hf,
        key_columns_string_ok_eq data "Dataset column not found: " dn didxs hd,
        key_columns_string_ok_eq data "Result column not found: " resn residxs hres]

/-- Witness for C8 (amended) on `dataAllCols`. -/
theorem C8_column_index_bases_witness :
    (Tester.init.set_instances dataAllCols).init_columns
      = Res.ok { Tester.init.set_instances dataAllCols with columns_determined := true }
        [ JCall.setDatasetKeyColumns (comma_join ([0].map fun i => toString (i + 1)))
        , JCall.setRunColumn ((1 : Nat) : Int)
        , JCall.setFoldColumn ((2 : Nat) : Int)
        , JCall.setResultsetKeyColumns (comma_join ([3, 4, 5].map fun i => toString (i + 1))) ] :=
  C8_column_index_bases (Tester.init.set_instances dataAllCols) dataAllCols
    ["Key_Dataset"] ["Key_Scheme", "Key_Scheme_options", "Key_Scheme_version_ID"]
    "Key_Run" "Key_Fold" [0] [3, 4, 5] 1 2
    rfl rfl rfl rfl rfl rfl (by decide) (by decide) (by decide) (by decide)

theorem configure_resultproducer_ok (classification : Bool) (p : ResultProducerKind)
    (hp : p ≠ ResultProducerKind.abstractBase) :
    ∃ trP, configure_resultproducer classification p = .ok trP := by
  cases p with
  | abstractBase => exact absurd rfl hp
  | crossValidation folds => exact ⟨_, rfl⟩
  | randomSplit pct po => exact ⟨_, rfl⟩

theorem setup_ok_of_choices (e : SimpleExperiment) (trProd : List ECall) (lcls : String)
    (hj : e.jobject = none)
    (hp : configure_resultproducer e.classification e.producer = .ok trProd)
    (hl : result_listener_choice e.result = .ok lcls) :
    e.setup = Res.ok { e with jobject := some 0 }
      (setup_config_calls e trProd
        ++ [ ECall.makeInstance lcls, ECall.makeFile (pyStr e.result)
           , ECall.setOutputFile, ECall.setResultListener ]) := by
  simp [SimpleExperiment.setup, hj, hp, hl]

theorem result_listener_choice_arff (r : String)
    (h : pyLowerEndsWith r ".arff".data = true) :
    result_listener_choice (some r) = .ok "weka/experiment/InstancesResultListener" := by
  simp [result_listener_choice, pyStr, h]

theorem result_listener_choice_csv (r : String)
    (h : pyLowerEndsWith r ".csv".data = true) :
    result_listener_choice (some r) = .ok "weka/experiment/CSVResultListener" := by
  simp [result_listener_choice, pyStr, h, not_lower_arff_of_lower_csv r h]

theorem result_listener_choice_other (r : String)
    (h1 : pyLowerEndsWith r ".arff".data = false)
    (h2 : pyLowerEndsWith r ".csv".data = false) :
    result_listener_choice (some r)
      = .error ("Unhandled output format for results: " ++ r) := by
  simp [result_listener_choice, pyStr, h1, h2]

/-- C3: constructing the cross-validation experiment with `runs < 1`,
`folds < 2`, empty datasets, empty classifiers or no result path fails with a
validation error, and likewise the random-split experiment with `runs < 1` or
`percentage` outside the open interval (0, 100); on success the wrapper holds
no foreign handle (`jobject = none`) — the embedded constructors contain no
foreign call (the source's first javabridge use is in `setup`), so the
failure happens before any foreign object exists. -/
theorem C3_constructor_validation (datasets classifiers : List String)
    (classification : Bool) (runs folds : Int) (percentage : Rat)
    (preserve_order : Bool) (result : Option String) :
    (runs < 1 ∨ folds < 2 ∨ datasets = [] ∨ classifiers = [] ∨ result = none →
      ∃ m, SimpleCrossValidationExperiment.init datasets classifiers classification
          runs folds result = .error m) ∧
    (runs < 1 ∨ ¬(0 < percentage ∧ percentage < 100) ∨ datasets = [] ∨ classifiers = []
        ∨ result = none →
      ∃ m, SimpleRandomSplitExperiment.init datasets classifiers classification
          runs percentage preserve_order result = .error m) ∧
    (∀ e, SimpleCrossValidationExperiment.init datasets classifiers classification
        runs folds result = .ok e → e.jobject = none) ∧
    (∀ e, SimpleRandomSplitExperiment.init datasets classifiers classification
        runs percentage preserve_order result = .ok e → e.jobject = none) := by
  refine ⟨?_, ?_, ?_, ?_⟩
  · intro h
    unfold SimpleCrossValidationExperiment.init
    split_ifs with h1 h2 h3 h4 h5
    · exact ⟨_, rfl⟩
    · exact ⟨_, rfl⟩
    · exact ⟨_, rfl⟩
    · exact ⟨_, rfl⟩
    · exact ⟨_, rfl⟩
    · exfalso
      rcases h with h | h | h | h | h
      · exact h1 h
      · exact h2 h
      · exact h3 (by simp [h])
      · exact h4 (by simp [h])
      · exact h5 (by simp [h])
  · intro h
    unfold SimpleRandomSplitExperiment.init
    split_ifs with h1 h2 h3 h4 h5 h6
    · exact ⟨_, rfl⟩
    · exact ⟨_, rfl⟩
    · exact ⟨_, rfl⟩
    · exact ⟨_, rfl⟩
    · exact ⟨_, rfl⟩
    · exact ⟨_, rfl⟩
    · exfalso
      rcases h with h | h | h | h | h
      · exact h1 h
      · rcases not_and_or.mp h with h | h
        · exact h2 (le_of_not_lt h)
        · exact h3 (not_lt.mp h)
      · exact h4 (by simp [h])
      · exact h5 (by simp [h])
      · exact h6 (by simp [h])
  · intro e h
    unfold SimpleCrossValidationExperiment.init at h
    split_ifs at h
    any_goals cases h
    all_goals rfl
  · intro e h
    unfold SimpleRandomSplitExperiment.init at h
    split_ifs at h
    any_goals cases h
    all_goals rfl

/-- Witness for C3: `runs = 0` is rejected. -/
theorem C3_constructor_validation_witness :
    ∃ m, SimpleCrossValidationExperiment.init ["data1.arff"] ["weka.classifiers.trees.J48"]
        true 0 10 (some "out.csv") = Except.error m :=
  (C3_constructor_validation ["data1.arff"] ["weka.classifiers.trees.J48"] true 0 10
      (50 : Rat) false (some "out.csv")).1 (Or.inl (by decide))

/-- C4: during `setup`, a result path ending in `".arff"` selects
`InstancesResultListener`, one ending in `".csv"` selects `CSVResultListener`,
and any other extension raises the configuration error. -/
theorem C4_listener_by_extension (e : SimpleExperiment) (r : String)
    (hj : e.jobject = none) (hp : e.producer ≠ ResultProducerKind.abstractBase)
    (hr : e.result = some r) :
    (List.isSuffixOf ".arff".data r.data = true →
      ∃ trP, e.setup = Res.ok { e with jobject := some 0 }
        (setup_config_calls e trP
          ++ [ ECall.makeInstance "weka/experiment/InstancesResultListener"
             , ECall.makeFile r, ECall.setOutputFile, ECall.setResultListener ])) ∧
    (List.isSuffixOf ".csv".data r.data = true →
      ∃ trP, e.setup = Res.ok { e with jobject := some 0 }
        (setup_config_calls e trP
          ++ [ ECall.makeInstance "weka/experiment/CSVResultListener"
             , ECall.makeFile r, ECall.setOutputFile, ECall.setResultListener ])) ∧
    (pyLowerEndsWith r ".arff".data = false → pyLowerEndsWith r ".csv".data = false →
      ∃ tr, e.setup = Res.exn ("Unhandled output format for results: " ++ r) tr) := by
  obtain ⟨trP, htrP⟩ := configure_resultproducer_ok e.classification e.producer hp
  refine ⟨?_, ?_, ?_⟩
  · intro hsuf
    have hlow := pyLowerEndsWith_of_isSuffixOf r ".arff".data (by decide) hsuf
    have hl := result_listener_choice_arff r hlow
    rw [← hr] at hl
    exact ⟨trP, by simpa [hr, pyStr] using setup_ok_of_choices e trP _ hj htrP hl⟩
  · intro hsuf
    have hlow := pyLowerEndsWith_of_isSuffixOf r ".csv".data (by decide) hsuf
    have hl := result_listener_choice_csv r hlow
    rw [← hr] at hl
    exact ⟨trP, by simpa [hr, pyStr] using setup_ok_of_choices e trP _ hj htrP hl⟩
  · intro h1 h2
    have hl := result_listener_choice_other r h1 h2
    rw [← hr] at hl
    refine ⟨setup_config_calls e trP, ?_⟩
    simp [SimpleExperiment.setup, hj, htrP, hl]

/-- Witness for C4: `"out.arff"` selects the instance-based listener. -/
theorem C4_listener_by_extension_witness :
    ∃ trP, expCV.setup = Res.ok { expCV with jobject := some 0 }
      (setup_config_calls expCV trP
        ++ [ ECall.makeInstance "weka/experiment/InstancesResultListener"
           , ECall.makeFile "out.arff", ECall.setOutputFile, ECall.setResultListener ]) :=
  (C4_listener_by_extension expCV "out.arff" rfl (by decide) rfl).1 (by decide)

/-- C5: `setup` is idempotent: with a foreign handle already present it
returns the state unchanged (same handle) and makes no foreign call, and
after any successful `setup` a second `setup` is such a no-op. -/
theorem C5_setup_idempotent (e : SimpleExperiment) :
    (∀ j, e.jobject = some j → e.setup = Res.ok e []) ∧
    (∀ e2 tr, e.setup = Res.ok e2 tr → e2.setup = Res.ok e2 []) := by
  constructor
  · intro j hj
    simp [SimpleExperiment.setup, hj]
  · intro e2 tr h
    by_cases hj : e.jobject.isSome
    · simp only [SimpleExperiment.setup, if_pos hj] at h
      cases h
      simp [SimpleExperiment.setup, hj]
    · simp only [SimpleExperiment.setup, if_neg hj] at h
      cases hcp : configure_resultproducer e.classification e.producer with
      | error m =>
        rw [hcp] at h
        cases h
      | ok trP =>
        rw [hcp] at h
        cases hl : result_listener_choice e.result with
        | error m =>
          rw [hl] at h
          cases h
        | ok lcls =>
          rw [hl] at h
          cases h
          simp [SimpleExperiment.setup]

/-- Witness for C5 at a concrete already-bound experiment. -/
theorem C5_setup_idempotent_witness :
    ({ expCV with jobject := some 0 } : SimpleExperiment).setup
      = Res.ok { expCV with jobject := some 0 } [] :=
  (C5_setup_idempotent { expCV with jobject := some 0 }).1 0 rfl

/-- C6: `run` makes exactly the three foreign calls initialize, runExperiment,
postProcess in that order when all succeed; an exception raised by any phase
stops the sequence (later phases are not invoked) and propagates unchanged. -/
theorem C6_run_three_phases (behav : ECall → Option String) :
    (behav ECall.initExperiment = none → behav ECall.runExperiment = none →
      behav ECall.postProcess = none →
      SimpleExperiment.run behav
        = Res.ok () [ECall.initExperiment, ECall.runExperiment, ECall.postProcess]) ∧
    (∀ m, behav ECall.initExperiment = some m →
      SimpleExperiment.run behav = Res.exn m [ECall.initExperiment]) ∧
    (∀ m, behav ECall.initExperiment = none → behav ECall.runExperiment = some m →
      SimpleExperiment.run behav = Res.exn m [ECall.initExperiment, ECall.runExperiment]) ∧
    (∀ m, behav ECall.initExperiment = none → behav ECall.runExperiment = none →
      behav ECall.postProcess = some m →
      SimpleExperiment.run behav
        = Res.exn m [ECall.initExperiment, ECall.runExperiment, ECall.postProcess]) := by
  refine ⟨?_, ?_, ?_, ?_⟩
  · intro h1 h2 h3
    simp [SimpleExperiment.run, h1, h2, h3]
  · intro m h1
    simp [SimpleExperiment.run, h1]
  · intro m h1 h2
    simp [SimpleExperiment.run, h1, h2]
  · intro m h1 h2 h3
    simp [SimpleExperiment.run, h1, h2, h3]

/-- Witness for C6: with an all-successful foreign behaviour, the run trace is
exactly the three ordered phases. -/
theorem C6_run_three_phases_witness :
    SimpleExperiment.run behavOk
      = Res.ok () [ECall.initExperiment, ECall.runExperiment, ECall.postProcess] :=
  (C6_run_three_phases behavOk).1 rfl rfl rfl

/-- C9: the extension dispatch lowercases the path first, so any path whose
lowercased form ends in `".arff"` (e.g. `"OUT.ARFF"`) selects the
instance-based listener and any whose lowercased form ends in `".csv"`
selects the tabular listener, instead of raising the configuration error. -/
theorem C9_extension_case_insensitive (e : SimpleExperiment) (r : String)
    (hj : e.jobject = none) (hp : e.producer ≠ ResultProducerKind.abstractBase)
    (hr : e.result = some r) :
    (pyLowerEndsWith r ".arff".data = true →
      ∃ trP, e.setup = Res.ok { e with jobject := some 0 }
        (setup_config_calls e trP
          ++ [ ECall.makeInstance "weka/experiment/InstancesResultListener"
             , ECall.makeFile r, ECall.setOutputFile, ECall.setResultListener ])) ∧
    (pyLowerEndsWith r ".csv".data = true →
      ∃ trP, e.setup = Res.ok { e with jobject := some 0 }
        (setup_config_calls e trP
          ++ [ ECall.makeInstance "weka/experiment/CSVResultListener"
             , ECall.makeFile r, ECall.setOutputFile, ECall.setResultListener ])) := by
  obtain ⟨trP, htrP⟩ := configure_resultproducer_ok e.classification e.producer hp
  constructor
  · intro hlow
    have hl := result_listener_choice_arff r hlow
    rw [← hr] at hl
    exact ⟨trP, by simpa [hr, pyStr] using setup_ok_of_choices e trP _ hj htrP hl⟩
  · intro hlow
    have hl := result_listener_choice_csv r hlow
    rw [← hr] at hl
    exact ⟨trP, by simpa [hr, pyStr] using setup_ok_of_choices e trP _ hj htrP hl⟩

/-- Witness for C9: `"OUT.ARFF"` selects the instance-based listener. -/
theorem C9_extension_case_insensitive_witness :
    ∃ trP, expUpper.setup = Res.ok { expUpper with jobject := some 0 }
      (setup_config_calls expUpper trP
        ++ [ ECall.makeInstance "weka/experiment/InstancesResultListener"
           , ECall.makeFile "OUT.ARFF", ECall.setOutputFile, ECall.setResultListener ]) :=
  (C9_extension_case_insensitive expUpper "OUT.ARFF" rfl (by decide) rfl).1 (by decide)

end PyWeka
